import Mathlib

/-!
Verification of the axicov-sdk tool-registry resolution and orchestration
pipeline (`src/registry/index.ts`, `src/agent/index.ts` and the related agent
variant).  The TypeScript is shallowly embedded: `Promise`-returning factory
calls become `Except` outcomes, the in-place mutation of the agent object
becomes explicit state passing, and the nondeterministic settlement order of
`Promise.allSettled` is modelled as input order (the spec itself notes order
only affects metadata phrasing).

A central point of the embedding is the dynamic type of `agent.tools`.  The
registry (`registry/index.ts`) writes with `agent.tools.push(...)`, i.e. it
treats the field as an array; one Agent variant declares `tools: any[]`
(an array), while the variant in `src/unnamed/part_001` (and the first
variant of `agent/index.ts`) declares `tools: { [key: string]: toolType }`
and initialises it with the object literal.  Calling `push` on a plain
object raises a `TypeError` at run time, which lands in the registry's
per-factory `catch`.  Both possibilities are embedded via `ToolStore`.
-/

namespace Axicov

/-- A loaded callable tool.  The executable part is opaque to this layer; the
registry only ever reads `tool.name`.  `tag` models object identity so that
two distinct tool objects with the same name stay distinguishable. -/
structure Tool where
  name : String
  tag : Nat
deriving DecidableEq, Repr

/-- A declared tool schema (`ToolSchema` in `src/types`): `requiresApproval`
is optional (`requiresApproval?: boolean`), hence `Option Bool`. -/
structure ToolSchema where
  name : String
  description : String
  requiresApproval : Option Bool
deriving DecidableEq, Repr

/-- The value a successful tool factory resolves with:
`{ tools: toolType[], schema: Tools }` where `Tools` is a string-keyed map of
`ToolSchema`s (embedded as an association list). -/
structure FactoryResult where
  tools : List Tool
  schema : List (String × ToolSchema)
deriving DecidableEq, Repr

/-- A tool factory, modelled by its outcome against the one agent it is
invoked on: `Except.ok` is the resolved value of `item(agent)`,
`Except.error` is a thrown/rejected error message. -/
abbrev Factory : Type := Except String FactoryResult

instance : DecidableEq Factory := fun a b =>
  match a, b with
  | Except.error e1, Except.error e2 =>
    if h : e1 = e2 then isTrue (by rw [h]) else isFalse (by intro hc; injection hc; exact h (by assumption))
  | Except.error _, Except.ok _ => isFalse (by intro hc; cases hc)
  | Except.ok _, Except.error _ => isFalse (by intro hc; cases hc)
  | Except.ok r1, Except.ok r2 =>
    if h : r1 = r2 then isTrue (by rw [h]) else isFalse (by intro hc; injection hc; exact h (by assumption))

/-- The settled outcome the registry records for one factory: the per-factory
`catch` turns a failure into `null` (here `none`), so `Promise.allSettled`
sees every entry fulfilled, with `null` for failed factories. -/
def factoryOutcome : Factory → Option FactoryResult
  | Except.ok r => some r
  | Except.error _ => none

/-- The run-time shape of `agent.tools`: an array (variant declaring
`tools: any[]`) or a plain string-keyed object (variants declaring
`tools: { [key: string]: toolType }`, embedded as an association list). -/
inductive ToolStore where
  | arr : List Tool → ToolStore
  | obj : List (String × Tool) → ToolStore
deriving DecidableEq, Repr

/-- `agent.tools.push(...toolItem.tools)` (registry line 38).  On an array it
appends; on a plain object `push` is not a function, so the call raises a
`TypeError` (`none`), to be caught by the surrounding per-factory `catch`. -/
def pushTools : ToolStore → List Tool → Option ToolStore
  | ToolStore.arr ts, new => some (ToolStore.arr (ts ++ new))
  | ToolStore.obj _, _ => none

/-- The slice of agent state the registry reads and writes. -/
structure RegAgent where
  tools : ToolStore
  toolMetadata : String
deriving DecidableEq, Repr

/-- One schema entry's contribution to the pending metadata list (registry
lines 41-45).  `item?.requiresApproval || false` maps `none` and
`some false` to `false`. -/
def metaEntry (s : ToolSchema) : String :=
  "\n  - Tool Name: " ++ s.name ++
  "\n  - Tool Description: " ++ s.description ++
  "\n  - Requires Approval: " ++ (if s.requiresApproval.getD false then "true" else "false") ++
  "\n            "

/-- The body of the per-factory async callback (registry lines 30-53),
including its `try`/`catch`: a thrown factory, or a `TypeError` from
`push` on an object-typed store, is caught and contributes nothing
(`return null`).  On success the tools are pushed and every value of the
schema map is appended to the pending metadata list. -/
def loadFactory (a : RegAgent) (meta : List String) (f : Factory) :
    RegAgent × List String × Option FactoryResult :=
  match f with
  | Except.error _ => (a, meta, none)
  | Except.ok r =>
    match pushTools a.tools r.tools with
    | none => (a, meta, none)
    | some ts =>
      ({ a with tools := ts }, meta ++ (r.schema.map Prod.snd).map metaEntry, some r)

/-- Runs every factory of the effective list and collects the settled
outcomes (`Promise.allSettled` at registry line 57); settlement order is
modelled as input order. -/
def runFactories (a : RegAgent) (meta : List String) :
    List Factory → RegAgent × List String × List (Option FactoryResult)
  | [] => (a, meta, [])
  | f :: fs =>
    let step := loadFactory a meta f
    let rest := runFactories step.1 step.2.1 fs
    (rest.1, rest.2.1, step.2.2 :: rest.2.2)

/-- `allRegistry.filter((_, idx) => toolNumbers.includes(idx))` (registry
lines 20-22): JavaScript's `filter` hands the callback the running index,
embedded here as the extra counter argument (started at 0). -/
def filterWithIndex (p : Nat → Bool) : List Factory → Nat → List Factory
  | [], _ => []
  | f :: fs, i =>
    if p i then f :: filterWithIndex p fs (i + 1) else filterWithIndex p fs (i + 1)

/-- The effective factory list the registry invokes (registry line 24):
`coreRegistry.concat(filteredToolBunches)`. -/
def effectiveRegistry (coreRegistry allRegistry : List Factory) (toolNumbers : List Nat) :
    List Factory :=
  coreRegistry ++ filterWithIndex (fun idx => toolNumbers.contains idx) allRegistry 0

/-- `exportToolsAndSetMetadata` (registry lines 11-96).  After all factory
calls settle, `agent.toolMetadata` is set to the pending entries joined with
a blank line; failures were already absorbed per factory, the trailing
zero-success check only logs, and the function returns the settled outcome
list.  The outer `try`/`catch` (line 92) is unreachable in this embedding
because nothing in the body can still throw. -/
def exportToolsAndSetMetadata (agent : RegAgent) (toolNumbers : List Nat)
    (coreRegistry allRegistry : List Factory) : RegAgent × List (Option FactoryResult) :=
  let run := runFactories agent [] (effectiveRegistry coreRegistry allRegistry toolNumbers)
  ({ run.1 with toolMetadata := String.intercalate "\n\n" run.2.1 }, run.2.2)

/-- The tools contributed by the successful factories of a list, in order. -/
def successTools (fs : List Factory) : List Tool :=
  (fs.filterMap (fun f => (factoryOutcome f).map FactoryResult.tools)).flatten

/-- The metadata entries contributed by the successful factories, in order. -/
def successMeta (fs : List Factory) : List String :=
  (fs.filterMap (fun f =>
    (factoryOutcome f).map (fun r => (r.schema.map Prod.snd).map metaEntry))).flatten

/-- Written after the spec's own words (§8): the effective factory list
"equals `C ++ [A[i] for i in S]` with original relative ordering preserved",
i.e. the core list followed by the elements of the all-registry whose
position is a member of the selection set. -/
def specEffectiveList (coreRegistry allRegistry : List Factory) (toolNumbers : List Nat) :
    List Factory :=
  coreRegistry ++ ((allRegistry.enum.filter (fun p => decide (p.1 ∈ toolNumbers))).map Prod.snd)

/-- `this.tools[name]`: property lookup on the string-keyed tool map of the
map-typed Agent variants; an absent key yields `undefined` (`none`). -/
def lookupTool (tools : List (String × Tool)) (name : String) : Option Tool :=
  match tools with
  | [] => none
  | kv :: rest => if kv.1 == name then some kv.2 else lookupTool rest name

/-- `Agent.orchestrate` of the `src/unnamed/part_001` variant (lines
177-231).  The externally produced model reply, after
`JSON.parse(orchestrationResponse.content.toString())`, is either a string
array or a thrown parse/model error, embedded as the `Except` argument.  On
success the names are mapped through the tool map without filtering
(`toolNames.map((name) => this.tools[name]) || []`; the `|| []` is dead
because `map` always returns an array); the `catch` logs and returns `[]`. -/
def orchestrate (tools : List (String × Tool)) (modelReply : Except String (List String)) :
    List (Option Tool) :=
  match modelReply with
  | Except.ok toolNames => toolNames.map (fun name => lookupTool tools name)
  | Except.error _ => []

/-- `Agent.messageAgent` of the part_001 variant (lines 155-175), projected
to the tool list it hands to the external `createReactAgent`: exactly the
list `orchestrate` returned, unchanged. -/
def messageAgent001 (tools : List (String × Tool)) (modelReply : Except String (List String)) :
    List (Option Tool) :=
  orchestrate tools modelReply

/-- What `Agent.orchestrate` of the `src/agent/index.ts` variant (lines
213-257) returns: a react agent built over the mapped tool list, or the
literal `false` from its `catch` (line 255). -/
inductive OrchResultA where
  | reactAgent : List (Option Tool) → OrchResultA
  | fls : OrchResultA
deriving DecidableEq, Repr

/-- `Agent.orchestrate` of the `src/agent/index.ts` variant: on a parse or
model error the `catch` returns `false`, not an empty tool list. -/
def orchestrateA (tools : List (String × Tool)) (modelReply : Except String (List String)) :
    OrchResultA :=
  match modelReply with
  | Except.ok toolNames => OrchResultA.reactAgent (toolNames.map (fun name => lookupTool tools name))
  | Except.error _ => OrchResultA.fls

/-- `Agent.messageAgent` of the `src/agent/index.ts` variant (lines 165-211),
projected to its outcome: if `orchestrate` returned `false`, the guard
`if (!agent) throw new Error("Agent failed")` fires, the outer `catch` logs
and the method returns `undefined` (`none`): the turn yields no response. -/
def messageAgentA (tools : List (String × Tool)) (modelReply : Except String (List String)) :
    Option OrchResultA :=
  match orchestrateA tools modelReply with
  | OrchResultA.fls => none
  | OrchResultA.reactAgent ts => some (OrchResultA.reactAgent ts)

/-- Caller-supplied persistent agent parameters (the fields this layer
touches). -/
structure Params where
  name : String
  instruction : String
  toolKnowledge : List String
deriving DecidableEq, Repr

/-- The checkpoint saver chosen during initialization. -/
inductive CheckPointSaver where
  | memorySaver : CheckPointSaver
  | mongoSaver : CheckPointSaver
deriving DecidableEq, Repr

/-- The agent state of the part_001 variant that this layer reads/writes. -/
structure AgentSt where
  threadId : String
  params : Params
  tools : ToolStore
  toolMetadata : String
  systemPrompt : Option String
  checkPointSaver : Option CheckPointSaver
deriving DecidableEq, Repr

/-- The part_001 `Agent` constructor (lines 25-57).  `this.params = params`
aliases the caller's object, and `this.params.toolKnowledge = []` (line 39)
then clears the hints on that shared object — so the returned pair holds the
constructed state (on success) together with the caller's params object as it
is after the call, mutated in either case.  The model check happens after
those assignments and throws when no model was supplied. -/
def agentConstructor (threadId : String) (params : Params) (model : Option Unit) :
    Except String AgentSt × Params :=
  let sharedParams : Params := { params with toolKnowledge := [] }
  match model with
  | some _ =>
    (Except.ok { threadId := threadId, params := sharedParams, tools := ToolStore.obj [],
                 toolMetadata := "", systemPrompt := none, checkPointSaver := none },
     sharedParams)
  | none =>
    (Except.error "Failed to initialize model: No valid API key found for AI models",
     sharedParams)

/-- The `ADDITIONAL KNOWLEDGE FROM TOOLS` interpolation (part_001 lines
126-133): `tk && tk.length > 0 && tk.filter(...).map(...).join("\n")` — an
array is always truthy, so an empty list short-circuits to the boolean
`false`, which the template renders as the text "false". -/
def toolKnowledgeBlock (tk : List String) : String :=
  if 0 < tk.length then
    String.intercalate "\n" ((tk.filter (fun item => item != "")).map (fun item => "- " ++ item))
  else "false"

/-- The system-prompt template of part_001 `initialize` (lines 93-134),
with the interpolated holes made explicit (`now` stands for
`new Date().toISOString()`). -/
def systemPromptText (p : Params) (now : String) (toolMetadata : String) : String :=
  "\n        Your name is " ++ p.name ++ " (Agent).\n        \n        INSTRUCTIONS:\n        "
  ++ p.instruction ++
  "\n        \n        - Behavioral Guidelines:\n          1. NEVER be rude to user\n          2. NEVER try to be over professional\n          3. ALWAYS be friendly to the user\n          4. NEVER act over politely\n          4. ALWAYS be concise and to the point\n        \n        Response Formatting:\n        - Use proper line breaks between different sections of your response for better readability\n        - Utilize markdown features effectively to enhance the structure of your response\n        - Keep responses concise and well-organized\n        - Use emojis sparingly and only when appropriate for the context\n        - Use an abbreviated format for transaction signatures\n        \n        Realtime knowledge:\n        - \x7b approximateCurrentTime: "
  ++ now ++
  "\x7d\n        \n        Your Available Tools:\n        "
  ++ toolMetadata ++
  "\n        \n        IMPORTANT POINTS:\n        - You are in your developement phase\n        - The development team will update you with more features\n        - Don\x27t use tools when it is not necessary\n        - **Always try to provide short, clear and concise responses**\n\n        ADDITIONAL KNOWLEDGE FROM TOOLS:\n        "
  ++ toolKnowledgeBlock p.toolKnowledge ++
  "\n        "

/-- The body of part_001 `Agent.initialize` (lines 59-149) up to, but not
including, its outermost `catch`: returns the state as mutated so far
together with the error that reaches the outer `catch`, if any.  The tool
loading step cannot raise (the registry absorbs its own failures), so the
inner rethrow of `Agent initialization failed` is dead; the system prompt is
then set, and for `checkPointer === "mongo"` a failed connection attempt
(`mongoConnect`, modelling `new MongoClient(...).connect()`) is rethrown as
`MongoDB connection failed: ...`.  Any other `checkPointer` value selects
the in-memory saver. -/
def agentInitBody (st : AgentSt) (toolNumbers : List Nat) (clients allRegistry : List Factory)
    (checkPointer : String) (mongoConnect : Except String Unit) (now : String) :
    AgentSt × Option String :=
  let reg := exportToolsAndSetMetadata ⟨st.tools, st.toolMetadata⟩ toolNumbers clients allRegistry
  let st1 : AgentSt := { st with tools := reg.1.tools, toolMetadata := reg.1.toolMetadata }
  let st2 : AgentSt := { st1 with systemPrompt := some (systemPromptText st1.params now st1.toolMetadata) }
  if checkPointer == "mongo" then
    match mongoConnect with
    | Except.error e => (st2, some ("MongoDB connection failed: " ++ e))
    | Except.ok _ => ({ st2 with checkPointSaver := some CheckPointSaver.mongoSaver }, none)
  else
    ({ st2 with checkPointSaver := some CheckPointSaver.memorySaver }, none)

/-- part_001 `Agent.initialize` as its caller observes it: the outermost
`try`/`catch` (lines 150-152) logs every error raised in the body and falls
through, so the call always returns normally (`Except.ok`), keeping whatever
mutations happened before the failure point. -/
def agentInit (st : AgentSt) (toolNumbers : List Nat) (clients allRegistry : List Factory)
    (checkPointer : String) (mongoConnect : Except String Unit) (now : String) :
    Except String AgentSt :=
  Except.ok (agentInitBody st toolNumbers clients allRegistry checkPointer mongoConnect now).1

/-- Whether an `initialize` call returned normally to its caller (as opposed
to propagating a thrown error). -/
def returnsNormally : Except String AgentSt → Bool
  | Except.ok _ => true
  | Except.error _ => false

/-- How many live entries a tool store holds under a given name: for an
array store, the number of stored tool objects carrying the name; for an
object store, the number of keys equal to the name. -/
def entriesNamed (ts : ToolStore) (n : String) : Nat :=
  match ts with
  | ToolStore.arr l => l.countP (fun t => t.name == n)
  | ToolStore.obj m => (m.filter (fun kv => kv.1 == n)).length

/- Concrete fixtures used by witnesses, counterexamples and evaluation
theorems. -/

def toolX1 : Tool := ⟨"X", 1⟩

def toolX2 : Tool := ⟨"X", 2⟩

def factoryX1 : Factory := Except.ok ⟨[toolX1], [("X", ⟨"X", "first", none⟩)]⟩

def factoryX2 : Factory := Except.ok ⟨[toolX2], [("X", ⟨"X", "second", none⟩)]⟩

def factoryBoom : Factory := Except.error "boom"

def agent0 : AgentSt :=
  ⟨"thread-1", ⟨"A", "do things", []⟩, ToolStore.obj [], "", none, none⟩

/-! Helper lemmas about the registry run. -/

/-- One settled outcome is recorded per factory, whatever the store shape. -/
theorem runFactories_results_length (fs : List Factory) :
    ∀ (a : RegAgent) (meta : List String), ((runFactories a meta fs).2.2).length = fs.length := by
  induction fs with
  | nil => intro a meta; rfl
  | cons f fs ih =>
    intro a meta
    simp only [runFactories, List.length_cons]
    rw [ih]

/-- Characterisation of a registry run over an array-backed tool store: the
tools of the successful factories are appended in order, the metadata
entries of the successful factories are appended in order, and the settled
outcome list mirrors the factory list. -/
theorem runFactories_arr (fs : List Factory) :
    ∀ (ts0 : List Tool) (tm : String) (meta0 : List String),
    runFactories ⟨ToolStore.arr ts0, tm⟩ meta0 fs
      = (⟨ToolStore.arr (ts0 ++ successTools fs), tm⟩,
         meta0 ++ successMeta fs, fs.map factoryOutcome) := by
  induction fs with
  | nil =>
    intro ts0 tm meta0
    simp [runFactories, successTools, successMeta]
  | cons f fs ih =>
    intro ts0 tm meta0
    cases f with
    | error e =>
      simp [runFactories, loadFactory, ih, successTools, successMeta, factoryOutcome,
        List.filterMap_cons]
    | ok r =>
      simp [runFactories, loadFactory, pushTools, ih, successTools, successMeta,
        factoryOutcome, List.filterMap_cons, List.append_assoc]

/-- A registry run over an object-backed tool store (the map-typed Agent
variants) changes nothing: every `push` raises a `TypeError` that the
per-factory `catch` absorbs, so no factory contributes tools or metadata and
every settled outcome is the `null` of the catch. -/
theorem runFactories_obj (fs : List Factory) :
    ∀ (m : List (String × Tool)) (tm : String) (meta0 : List String),
    runFactories ⟨ToolStore.obj m, tm⟩ meta0 fs
      = (⟨ToolStore.obj m, tm⟩, meta0, fs.map (fun _ => none)) := by
  induction fs with
  | nil => intro m tm meta0; rfl
  | cons f fs ih =>
    intro m tm meta0
    cases f with
    | error e => simp [runFactories, loadFactory, ih]
    | ok r => simp [runFactories, loadFactory, pushTools, ih]

/-- `filterWithIndex` agrees with filtering the enumerated list on the index
component. -/
theorem filterWithIndex_eq (p : Nat → Bool) (l : List Factory) :
    ∀ i : Nat, filterWithIndex p l i = ((List.enumFrom i l).filter (fun q => p q.1)).map Prod.snd := by
  induction l with
  | nil => intro i; rfl
  | cons f fs ih =>
    intro i
    by_cases hp : p i <;> simp [filterWithIndex, hp, ih, List.filter_cons]

/-- Pointwise equal index predicates filter the same sublist. -/
theorem filterWithIndex_congr {p q : Nat → Bool} (h : ∀ i, p i = q i) (l : List Factory) :
    ∀ i : Nat, filterWithIndex p l i = filterWithIndex q l i := by
  induction l with
  | nil => intro i; rfl
  | cons f fs ih => intro i; simp [filterWithIndex, h i, ih]

/-- The filtered part keeps the relative order of the all-registry list. -/
theorem filterWithIndex_sublist (p : Nat → Bool) (l : List Factory) (i : Nat) :
    List.Sublist (filterWithIndex p l i) l := by
  rw [filterWithIndex_eq]
  have h := (List.filter_sublist (p := fun q : Nat × Factory => p q.1) (List.enumFrom i l)).map Prod.snd
  rwa [List.enumFrom_map_snd] at h

/-- Tools of a successful factory belong to the run's success tools. -/
theorem mem_successTools {fs : List Factory} {r : FactoryResult} {t : Tool}
    (hf : Except.ok r ∈ fs) (ht : t ∈ r.tools) : t ∈ successTools fs := by
  unfold successTools
  refine List.mem_flatten.2 ⟨r.tools, ?_, ht⟩
  exact List.mem_filterMap.2 ⟨Except.ok r, hf, rfl⟩

/-- Claim C1: for every core-factory list, all-registry list and index set,
the effective factory list invoked by `exportToolsAndSetMetadata` equals the
core list concatenated with the elements of the all-registry whose index is
a member of the selection, keeping the core prefix intact and the filtered
part in the all-registry's original relative order; the order (and
multiplicity) of the indices inside the selection is irrelevant, and the
export call settles exactly one outcome per effective factory. -/
theorem c1_effective_factory_list (core all : List Factory) (s : List Nat) :
    effectiveRegistry core all s = specEffectiveList core all s
    ∧ (effectiveRegistry core all s).take core.length = core
    ∧ List.Sublist ((effectiveRegistry core all s).drop core.length) all
    ∧ (∀ s2 : List Nat, (∀ i : Nat, i ∈ s ↔ i ∈ s2) →
        effectiveRegistry core all s = effectiveRegistry core all s2)
    ∧ (∀ a : RegAgent, ((exportToolsAndSetMetadata a s core all).2).length
        = (effectiveRegistry core all s).length) := by
  refine ⟨?_, ?_, ?_, ?_, ?_⟩
  · unfold effectiveRegistry specEffectiveList
    rw [filterWithIndex_eq]
    show _ ++ ((List.enum all).filter _).map Prod.snd = _
    congr 1
    refine congrArg _ (List.filter_congr ?_)
    intro q _
    show (List.elem q.1 s) = decide (q.1 ∈ s)
    rw [List.elem_eq_mem]
  · unfold effectiveRegistry
    exact List.take_left core _
  · unfold effectiveRegistry
    rw [List.drop_left]
    exact filterWithIndex_sublist _ all 0
  · intro s2 hmem
    unfold effectiveRegistry
    refine congrArg _ (filterWithIndex_congr ?_ all 0)
    intro i
    show (List.elem i s) = (List.elem i s2)
    rw [List.elem_eq_mem, List.elem_eq_mem]
    exact decide_eq_decide.mpr (hmem i)
  · intro a
    unfold exportToolsAndSetMetadata
    exact runFactories_results_length _ _ _

/-- Witness for C1 at a concrete input: selections `[1, 0]` and `[0, 1, 1]`
have the same members, so they resolve the same effective list. -/
theorem c1_effective_factory_list_w :
    effectiveRegistry [factoryBoom] [factoryX1, factoryX2] [1, 0]
      = effectiveRegistry [factoryBoom] [factoryX1, factoryX2] [0, 1, 1] := by
  refine (c1_effective_factory_list [factoryBoom] [factoryX1, factoryX2] [1, 0]).2.2.2.1
    [0, 1, 1] ?_
  intro i
  simp only [List.mem_cons, List.not_mem_nil, or_false]
  tauto

/-- Claim C2: over the array-backed tool collection the registry writes to,
a run of `exportToolsAndSetMetadata` appends exactly the tools of the
successful factories (so a throwing factory contributes zero tools), sets
the metadata to the entries of the successful factories only (zero metadata
entries for a throwing factory), settles one outcome per factory (a failure
aborts neither its siblings nor the overall call), and the final collection
contains every tool contributed by each non-throwing factory. -/
theorem c2_failed_factory_isolated (ts0 : List Tool) (tm0 : String) (nums : List Nat)
    (core all : List Factory) :
    (exportToolsAndSetMetadata ⟨ToolStore.arr ts0, tm0⟩ nums core all).1.tools
        = ToolStore.arr (ts0 ++ successTools (effectiveRegistry core all nums))
    ∧ (exportToolsAndSetMetadata ⟨ToolStore.arr ts0, tm0⟩ nums core all).1.toolMetadata
        = String.intercalate "\n\n" (successMeta (effectiveRegistry core all nums))
    ∧ (exportToolsAndSetMetadata ⟨ToolStore.arr ts0, tm0⟩ nums core all).2
        = (effectiveRegistry core all nums).map factoryOutcome
    ∧ (∀ r : FactoryResult, Except.ok r ∈ effectiveRegistry core all nums →
        ∀ t ∈ r.tools, t ∈ ts0 ++ successTools (effectiveRegistry core all nums)) := by
  refine ⟨?_, ?_, ?_, ?_⟩
  · unfold exportToolsAndSetMetadata
    rw [runFactories_arr]
  · unfold exportToolsAndSetMetadata
    rw [runFactories_arr]
    rfl
  · unfold exportToolsAndSetMetadata
    rw [runFactories_arr]
  · intro r hr t ht
    exact List.mem_append.2 (Or.inr (mem_successTools hr ht))

/-- Witness for C2 at a concrete input: with the effective list
`[factoryX1, factoryBoom, factoryX2]`, the tool of the successful
`factoryX2` is in the final collection even though its sibling threw. -/
theorem c2_failed_factory_isolated_w :
    toolX2 ∈ ([] : List Tool)
      ++ successTools (effectiveRegistry [factoryX1] [factoryBoom, factoryX2] [0, 1]) := by
  refine (c2_failed_factory_isolated [] "" [0, 1] [factoryX1] [factoryBoom, factoryX2]).2.2.2
    ⟨[toolX2], [("X", ⟨"X", "second", none⟩)]⟩ ?_ toolX2 ?_
  · show Except.ok _ ∈ effectiveRegistry [factoryX1] [factoryBoom, factoryX2] [0, 1]
    decide
  · decide

/-- Claim C3: when every factory of the effective list fails,
`exportToolsAndSetMetadata` still returns normally with its per-factory
outcome list (one settled entry per factory, all recording the failure),
leaves the tool collection unchanged, produces an empty metadata string,
and the agent's initialization still returns normally to its caller. -/
theorem c3_total_failure_graceful (ts0 : List Tool) (tm0 : String) (nums : List Nat)
    (core all : List Factory)
    (h : ∀ f ∈ effectiveRegistry core all nums, factoryOutcome f = none) :
    (exportToolsAndSetMetadata ⟨ToolStore.arr ts0, tm0⟩ nums core all).2
        = (effectiveRegistry core all nums).map factoryOutcome
    ∧ ((exportToolsAndSetMetadata ⟨ToolStore.arr ts0, tm0⟩ nums core all).2).length
        = (effectiveRegistry core all nums).length
    ∧ (exportToolsAndSetMetadata ⟨ToolStore.arr ts0, tm0⟩ nums core all).1.tools
        = ToolStore.arr ts0
    ∧ (exportToolsAndSetMetadata ⟨ToolStore.arr ts0, tm0⟩ nums core all).1.toolMetadata = ""
    ∧ (∀ (st : AgentSt) (cp : String) (mc : Except String Unit) (now : String),
        returnsNormally (agentInit st nums core all cp mc now) = true) := by
  have htools : successTools (effectiveRegistry core all nums) = [] := by
    unfold successTools
    have : (effectiveRegistry core all nums).filterMap
        (fun f => (factoryOutcome f).map FactoryResult.tools) = [] := by
      refine List.filterMap_eq_nil_iff.2 ?_
      intro f hf
      rw [h f hf]
      rfl
    rw [this]
    rfl
  have hmeta : successMeta (effectiveRegistry core all nums) = [] := by
    unfold successMeta
    have : (effectiveRegistry core all nums).filterMap
        (fun f => (factoryOutcome f).map
          (fun r => (r.schema.map Prod.snd).map metaEntry)) = [] := by
      refine List.filterMap_eq_nil_iff.2 ?_
      intro f hf
      rw [h f hf]
      rfl
    rw [this]
    rfl
  refine ⟨?_, ?_, ?_, ?_, ?_⟩
  · unfold exportToolsAndSetMetadata
    rw [runFactories_arr]
  · unfold exportToolsAndSetMetadata
    exact runFactories_results_length _ _ _
  · unfold exportToolsAndSetMetadata
    rw [runFactories_arr]
    simp [htools]
  · unfold exportToolsAndSetMetadata
    rw [runFactories_arr]
    simp [hmeta]
    rfl
  · intro st cp mc now
    rfl

/-- Witness for C3 at a concrete input: both effective factories fail. -/
theorem c3_total_failure_graceful_w :
    (exportToolsAndSetMetadata ⟨ToolStore.arr [], ""⟩ [0] [factoryBoom]
        [factoryBoom, factoryX1]).1.tools = ToolStore.arr [] := by
  refine (c3_total_failure_graceful [] "" [0] [factoryBoom] [factoryBoom, factoryX1] ?_).2.2.1
  decide

/-- Claim C4, evaluated at the failing input: two successful factories both
declare a tool named "X".  Against the map-typed agents (tools declared as a
string-keyed object) the registry's `agent.tools.push` raises a `TypeError`
per factory, so the mapping ends with zero entries named "X"; against the
array-typed variant both tool objects are appended and two entries named
"X" persist.  Neither run yields the claimed single, last-registered
entry. -/
theorem c4_name_collision_eval :
    (exportToolsAndSetMetadata ⟨ToolStore.obj [], ""⟩ [0, 1] [] [factoryX1, factoryX2]).1.tools
        = ToolStore.obj []
    ∧ entriesNamed
        (exportToolsAndSetMetadata ⟨ToolStore.obj [], ""⟩ [0, 1] [] [factoryX1, factoryX2]).1.tools
        "X" = 0
    ∧ (exportToolsAndSetMetadata ⟨ToolStore.arr [], ""⟩ [0, 1] [] [factoryX1, factoryX2]).1.tools
        = ToolStore.arr [toolX1, toolX2]
    ∧ entriesNamed
        (exportToolsAndSetMetadata ⟨ToolStore.arr [], ""⟩ [0, 1] [] [factoryX1, factoryX2]).1.tools
        "X" = 2 := by
  refine ⟨?_, ?_, ?_, ?_⟩ <;> decide

/-- Claim C5 counterexample: in the `src/agent/index.ts` variant, a
malformed orchestration reply makes `orchestrate` return the literal
`false` rather than an empty tool list, and `messageAgent` then aborts the
turn with no response instead of completing tool-less. -/
theorem c5_not_json_counterexample :
    orchestrateA [("X", ⟨"X", 3⟩)] (Except.error "SyntaxError: Unexpected token")
        = OrchResultA.fls
    ∧ messageAgentA [("X", ⟨"X", 3⟩)] (Except.error "SyntaxError: Unexpected token") = none :=
  ⟨rfl, rfl⟩

/-- Claim C5 as amended: in the part_001 variant a parse/model error is
caught and orchestrate returns the empty tool list, which `messageAgent`
passes on, so the turn completes tool-less; in the `src/agent/index.ts`
variant the catch instead returns `false` and `messageAgent` aborts that
turn with a logged error and no response. -/
theorem c5_parse_error_degrades (tools : List (String × Tool)) (e : String) :
    orchestrate tools (Except.error e) = []
    ∧ messageAgent001 tools (Except.error e) = []
    ∧ orchestrateA tools (Except.error e) = OrchResultA.fls
    ∧ messageAgentA tools (Except.error e) = none :=
  ⟨rfl, rfl, rfl, rfl⟩

/-- Claim C6: a sentinel `INVALID_TOOL:<name>` never resolves to a live tool
through the agent's tool-map lookup, provided no registered tool name is of
the sentinel form `"INVALID_TOOL:" ++ s`. -/
theorem c6_sentinel_never_resolves (tools : List (String × Tool)) (n : String)
    (h : ∀ kv ∈ tools, ∀ s : String, kv.1 ≠ "INVALID_TOOL:" ++ s) :
    lookupTool tools ("INVALID_TOOL:" ++ n) = none := by
  induction tools with
  | nil => rfl
  | cons kv rest ih =>
    have hk : kv.1 ≠ "INVALID_TOOL:" ++ n := h kv (List.mem_cons_self kv rest) n
    have hbeq : (kv.1 == "INVALID_TOOL:" ++ n) = false := beq_eq_false_iff_ne.mpr hk
    show (if kv.1 == "INVALID_TOOL:" ++ n then some kv.2 else lookupTool rest _) = none
    rw [hbeq]
    simp only [Bool.false_eq_true, if_false]
    exact ih (fun kv2 hm s => h kv2 (List.mem_cons_of_mem kv hm) s)

/-- Witness for C6 at a concrete input: a map holding only "getBalance"
(shorter than any sentinel) resolves `INVALID_TOOL:transfer` to nothing. -/
theorem c6_sentinel_never_resolves_w :
    lookupTool [("getBalance", ⟨"getBalance", 7⟩)] ("INVALID_TOOL:" ++ "transfer") = none := by
  apply c6_sentinel_never_resolves
  intro kv hkv s
  have hkv2 : kv = ("getBalance", (⟨"getBalance", 7⟩ : Tool)) := by simpa using hkv
  rw [hkv2]
  intro heq
  have h1 : ("INVALID_TOOL:" ++ s).length = ("INVALID_TOOL:" : String).length + s.length :=
    String.length_append _ _
  have h2 := congrArg String.length heq
  rw [h1] at h2
  have h3 : ("getBalance" : String).length = 10 := rfl
  have h4 : ("INVALID_TOOL:" : String).length = 13 := rfl
  rw [h3, h4] at h2
  omega

/-- Claim C7: in the part_001 orchestrate, the returned list has exactly one
entry per name the model returned, each entry is the raw map lookup of the
name at the same position, an unmatched name yields `undefined` (`none`)
kept in place rather than filtered out, and `messageAgent` passes the list
downstream unchanged. -/
theorem c7_unmatched_not_filtered (tools : List (String × Tool)) (names : List String) :
    (orchestrate tools (Except.ok names)).length = names.length
    ∧ (∀ i : Nat, (orchestrate tools (Except.ok names))[i]?
        = (names[i]?).map (fun name => lookupTool tools name))
    ∧ (∀ i : Nat, ∀ nm : String, names[i]? = some nm → lookupTool tools nm = none →
        (orchestrate tools (Except.ok names))[i]? = some none)
    ∧ messageAgent001 tools (Except.ok names) = orchestrate tools (Except.ok names) := by
  refine ⟨?_, ?_, ?_, rfl⟩
  · show (names.map (fun name => lookupTool tools name)).length = names.length
    exact List.length_map _ _
  · intro i
    show (names.map (fun name => lookupTool tools name))[i]? = _
    exact List.getElem?_map _ _ _
  · intro i nm hi hn
    show (names.map (fun name => lookupTool tools name))[i]? = some none
    rw [List.getElem?_map, hi]
    show some (lookupTool tools nm) = some none
    rw [hn]

/-- Witness for C7 at a concrete input: of `["X", "nope"]`, the unmatched
second name stays in the list as an `undefined` entry. -/
theorem c7_unmatched_not_filtered_w :
    (orchestrate [("X", ⟨"X", 3⟩)] (Except.ok ["X", "nope"]))[1]? = some none :=
  (c7_unmatched_not_filtered [("X", ⟨"X", 3⟩)] ["X", "nope"]).2.2.1 1 "nope" rfl rfl

/-- Claim C8 counterexample: with `checkPointer = "mongo"` and a failing
connection attempt, the part_001 `initialize` records the rethrown
`MongoDB connection failed` error internally, never sets a checkpoint
saver, and yet returns normally to its caller — the outermost catch logs
the error instead of surfacing it. -/
theorem c8_mongo_failure_swallowed :
    returnsNormally (agentInit agent0 [0] [] [factoryX1] "mongo"
        (Except.error "connect ECONNREFUSED") "2026-01-01T00:00:00.000Z") = true
    ∧ (agentInitBody agent0 [0] [] [factoryX1] "mongo"
        (Except.error "connect ECONNREFUSED") "2026-01-01T00:00:00.000Z").2
        = some "MongoDB connection failed: connect ECONNREFUSED"
    ∧ (agentInitBody agent0 [0] [] [factoryX1] "mongo"
        (Except.error "connect ECONNREFUSED") "2026-01-01T00:00:00.000Z").1.checkPointSaver
        = none :=
  ⟨rfl, rfl, rfl⟩

/-- Claim C8 as amended: for every agent state and factory configuration, a
failed MongoDB connection under `checkPointer = "mongo"` is rethrown inside
`initialize` as `MongoDB connection failed: ...`, but the outermost catch
swallows it: the call returns normally and the checkpoint saver is left
untouched, so the failure is not surfaced to the caller as a thrown
error. -/
theorem c8_mongo_error_not_surfaced (st : AgentSt) (toolNumbers : List Nat)
    (clients allRegistry : List Factory) (e : String) (now : String) :
    returnsNormally (agentInit st toolNumbers clients allRegistry "mongo" (Except.error e) now)
        = true
    ∧ (agentInitBody st toolNumbers clients allRegistry "mongo" (Except.error e) now).2
        = some ("MongoDB connection failed: " ++ e)
    ∧ (agentInitBody st toolNumbers clients allRegistry "mongo"
        (Except.error e) now).1.checkPointSaver = st.checkPointSaver := by
  refine ⟨rfl, ?_, ?_⟩
  · simp [agentInitBody]
  · simp [agentInitBody]

/-- Claim C9, evaluated at the failing input: initializing the map-typed
part_001 agent twice with a factory contributing tool "X" returns normally
both times, yet the tool mapping is empty after both runs instead of
holding the union of the runs' successful tools (the registry's array
`push` fails on the object store); the array-typed variant's collection, by
contrast, accumulates both runs' contributions. -/
theorem c9_double_init_eval :
    returnsNormally (agentInit agent0 [0] [] [factoryX1] "local" (Except.ok ()) "T") = true
    ∧ (agentInitBody agent0 [0] [] [factoryX1] "local" (Except.ok ()) "T").1.tools
        = ToolStore.obj []
    ∧ returnsNormally (agentInit
        (agentInitBody agent0 [0] [] [factoryX1] "local" (Except.ok ()) "T").1
        [0] [] [factoryX1] "local" (Except.ok ()) "T") = true
    ∧ (agentInitBody (agentInitBody agent0 [0] [] [factoryX1] "local" (Except.ok ()) "T").1
        [0] [] [factoryX1] "local" (Except.ok ()) "T").1.tools = ToolStore.obj []
    ∧ (exportToolsAndSetMetadata
        (exportToolsAndSetMetadata ⟨ToolStore.arr [], ""⟩ [0] [] [factoryX1]).1
        [0] [] [factoryX1]).1.tools = ToolStore.arr [toolX1, toolX1] :=
  ⟨rfl, rfl, rfl, rfl, rfl⟩

/-- Claim C10: the part_001 constructor stores the caller's params object
and unconditionally assigns an empty array to its toolKnowledge, so every
construction discards caller-supplied tool-knowledge hints before
initialization and mutates the caller's own object (agent state and caller
alias the same cleared record); the mutation happens whether or not a model
was supplied. -/
theorem c10_constructor_clears_knowledge (threadId : String) (p : Params) (model : Option Unit) :
    (agentConstructor threadId p model).2 = { p with toolKnowledge := [] }
    ∧ ((agentConstructor threadId p model).2).toolKnowledge = []
    ∧ (∀ st : AgentSt, (agentConstructor threadId p model).1 = Except.ok st →
        st.params = (agentConstructor threadId p model).2)
    ∧ (p.toolKnowledge ≠ [] → (agentConstructor threadId p model).2 ≠ p) := by
  refine ⟨?_, ?_, ?_, ?_⟩
  · cases model <;> rfl
  · cases model <;> rfl
  · intro st hst
    cases model with
    | none => cases hst
    | some u =>
      have hst2 : Except.ok (⟨threadId, { p with toolKnowledge := [] }, ToolStore.obj [],
          "", none, none⟩ : AgentSt) = Except.ok st := hst
      injection hst2 with hval
      rw [← hval]
      rfl
  · intro hne hcontra
    apply hne
    have h1 : ((agentConstructor threadId p model).2).toolKnowledge = p.toolKnowledge :=
      congrArg Params.toolKnowledge hcontra
    have h2 : ((agentConstructor threadId p model).2).toolKnowledge = [] := by
      cases model <;> rfl
    rw [h2] at h1
    exact h1.symm

/-- Witness for C10 at a concrete input: caller-supplied hints `["hint"]`
are gone after construction, and the caller's object no longer equals what
it passed in. -/
theorem c10_constructor_clears_knowledge_w :
    Params.toolKnowledge ((agentConstructor "thread-1"
        ⟨"A", "do things", ["hint"]⟩ (some ())).2) = []
    ∧ (agentConstructor "thread-1" ⟨"A", "do things", ["hint"]⟩ (some ())).2
        ≠ (⟨"A", "do things", ["hint"]⟩ : Params) :=
  ⟨(c10_constructor_clears_knowledge "thread-1" ⟨"A", "do things", ["hint"]⟩ (some ())).2.1,
   (c10_constructor_clears_knowledge "thread-1" ⟨"A", "do things", ["hint"]⟩ (some ())).2.2.2
     (by decide)⟩

end Axicov
